import Mathlib

/-!
Verification development for the awx-assistant repository.

The repository is a FastAPI middle tier that lets chat clients drive an
AWX installation through LLM agents.  The parts embedded here are the
parts the specification makes checkable statements about:

* the per-user conversation store backed by Redis
  (src/conversations/conversation.py, duplicated in src/main.py):
  get_history and save_history;
* the generic HTTP helper of the AWX API client
  (src/agent_tools/awx_mcp.py): make_request;
* the chat-turn handlers of src/main.py (handle_awx_chat and api_chat):
  prompt construction, the persistence decision after a completed
  orchestrator run, and the guardrail-tripwire branch;
* the static agent wiring of src/main.py and src/sub_agents/awx_worker.py
  (which guardrails are attached to the leader agent, and which tool
  names the AWX worker imports from agent_tools.awx_mcp).

Stored Redis values are JSON; they are modelled by the inductive type
JVal, which stands for the result of json.loads on the stored bytes.
Python exceptions that escape a function are modelled by Except.error;
a caught-and-swallowed exception is visible as an ordinary return value.
-/

namespace AwxAssistant

/-- Model of a parsed JSON value, the result of json.loads. -/
inductive JVal where
  | null
  | bool (b : Bool)
  | num (n : Int)
  | str (s : String)
  | arr (items : List JVal)
  | obj (fields : List (String × JVal))

/-- Python list slicing xs[-n:]: the last n elements (all of them when
the list is shorter than n). -/
def lastN (n : Nat) (xs : List α) : List α :=
  xs.drop (xs.length - n)

/-- What one Redis GET of the conversation key observes.  unreachable
models redis.RedisError raised by the client, missing models a None
reply (no record), malformed models stored bytes that json.loads
rejects with json.JSONDecodeError, and stored v models bytes that parse
to the JSON value v. -/
inductive Fetch where
  | unreachable
  | missing
  | malformed
  | stored (v : JVal)

/-- Python subscription item[key] on a parsed JSON value: a KeyError
when the key is absent from a dict, a TypeError when the value is not a
dict at all.  Neither exception is caught by get_history. -/
def pyIndex (item : JVal) (key : String) : Except String JVal :=
  match item with
  | .obj fields =>
    match fields.lookup key with
    | some v => .ok v
    | none => .error ("KeyError: " ++ key)
  | _ => .error "TypeError: value is not subscriptable by a string"

/-- One iteration of the projection loop in get_history:
{"role": item["role"], "content": item["content"]}. -/
def projectItem (item : JVal) : Except String JVal := do
  let r ← pyIndex item "role"
  let c ← pyIndex item "content"
  .ok (.obj [("role", r), ("content", c)])

/-- The whole projection loop of get_history: builds the projected list
in order and propagates the first uncaught exception. -/
def projectAll : List JVal → Except String (List JVal)
  | [] => .ok []
  | item :: rest => do
    let turn ← projectItem item
    let others ← projectAll rest
    .ok (turn :: others)

/-- Embedding of get_history (src/conversations/conversation.py lines
16-45, identical copy in src/main.py).  A RedisError on the GET and a
JSONDecodeError from json.loads are caught and give the empty list, as
does a missing record and a parsed value that is not a list.  For a
list, with all_fields the last 20 raw items are returned; otherwise
every item is projected to its role and content fields (the projection
can raise, see pyIndex) and the last 20 projected items are returned. -/
def get_history (fetch : Fetch) (all_fields : Bool) : Except String (List JVal) :=
  match fetch with
  | .unreachable => .ok []
  | .missing => .ok []
  | .malformed => .ok []
  | .stored v =>
    match v with
    | .arr items =>
      if all_fields then
        .ok (lastN 20 items)
      else do
        let result ← projectAll items
        .ok (lastN 20 result)
    | _ => .ok []

/-- Embedding of save_history (src/conversations/conversation.py lines
47-77, identical copy in src/main.py), returning the final store state
together with the number of transaction attempts.  The conflicts list
is the schedule of WatchError outcomes: attempt k raises WatchError
exactly when the k-th entry is true, and an exhausted schedule means
the attempt commits.  On WatchError the function calls itself again on
the rest of the schedule (the recursive simple retry of line 75).  A
RedisError, and a JSONDecodeError from the json.loads of the currently
stored bytes (line 63), are caught and swallowed, leaving the store
unchanged after a single attempt. -/
def save_history_impl : List Bool → List JVal → Fetch → Fetch × Nat
  | _, _, .unreachable => (.unreachable, 1)
  | _, _, .malformed => (.malformed, 1)
  | [], new_history, _ => (.stored (.arr new_history), 1)
  | c :: rest, new_history, store =>
    if c then
      let p := save_history_impl rest new_history store
      (p.1, p.2 + 1)
    else (.stored (.arr new_history), 1)

/-- The store state after save_history returns. -/
def save_history (conflicts : List Bool) (new_history : List JVal) (store : Fetch) : Fetch :=
  (save_history_impl conflicts new_history store).1

/-- Number of automatic retries save_history performs: total attempts
minus the initial one. -/
def save_retries (conflicts : List Bool) (new_history : List JVal) (store : Fetch) : Nat :=
  (save_history_impl conflicts new_history store).2 - 1

/-- A store state in which the transaction body of save_history can
actually commit: the current value is reachable and parseable. -/
def writeOk : Fetch → Bool
  | .unreachable => false
  | .malformed => false
  | _ => true

/-- Presence of a key in a parsed JSON object. -/
def hasKey (fields : List (String × JVal)) (k : String) : Bool :=
  (fields.lookup k).isSome

/-- A history item on which the projection loop of get_history cannot
raise: a JSON object carrying both a role and a content key. -/
def wellFormedTurn : JVal → Bool
  | .obj fields => hasKey fields "role" && hasKey fields "content"
  | _ => false

/-- The pure projection get_history applies to a well-formed item:
keep only the role and content fields. -/
def projRC : JVal → JVal
  | .obj fields =>
    .obj [("role", (fields.lookup "role").getD .null),
          ("content", (fields.lookup "content").getD .null)]
  | v => v

/-! HTTP helper of the AWX API client, src/agent_tools/awx_mcp.py lines
19-25. -/

/-- One HTTP response as httpx hands it back.  json_outcome models the
result of calling response.json(): the parsed body, or the exception
json decoding raises on a malformed body. -/
structure HttpResponse where
  status_code : Nat
  text : String
  content_type : String
  json_outcome : Except String JVal

/-- Outcome of the underlying client.request call: either the httpx
exception it raises (connection failure, timeout), or a response. -/
inductive NetOutcome where
  | netError (e : String)
  | response (r : HttpResponse)

/-- The status codes make_request treats as success (line 23). -/
def statusOkList : List Nat := [200, 201]

/-- Containment of one character list in another: the needle occurs as
a contiguous run of the haystack. -/
def hasInfix : List Char → List Char → Bool
  | h :: t, needle => needle.isPrefixOf (h :: t) || hasInfix t needle
  | [], needle => needle.isEmpty

/-- Python substring test, the expression
"application/json" in response.headers.get("Content-Type", ""). -/
def containsAppJson (ct : String) : Bool :=
  hasInfix ct.toList "application/json".toList

/-- Embedding of make_request (src/agent_tools/awx_mcp.py lines 19-25).
The function has no try block: an exception from client.request
propagates, a status code outside [200, 201] gives a textual error
result, a JSON content type makes it return the outcome of
response.json() (whose decode exception also propagates), and any
other content type gives the raw body text. -/
def make_request (net : NetOutcome) : Except String JVal :=
  match net with
  | .netError e => .error e
  | .response r =>
    if r.status_code ∉ statusOkList then
      .ok (.str ("Error " ++ toString r.status_code ++ ": " ++ r.text))
    else if containsAppJson r.content_type then
      r.json_outcome
    else
      .ok (.str r.text)

/-! Chat-turn handling, src/main.py handle_awx_chat (lines 279-349) and
api_chat (lines 357-441), which share the same logic; the Slack path in
src/slack_connection/slack_functions.py background_slack_response is a
third copy of it. -/

/-- The three fields the handlers project out of the final structured
output with getattr(final_output, field, "") on lines 316-318: a field
the concrete output model lacks is read as the empty string. -/
structure FinalOutput where
  explanation : String
  result : String
  tool_name : String

/-- A history entry {"role": role, "content": content}. -/
def roleContent (role content : String) : JVal :=
  .obj [("role", .str role), ("content", .str content)]

/-- The assistant entry the handlers persist on line 320:
{"role": "assistant", "content": explanation, "tool_result": result,
"tool_name": tool_name}. -/
def assistant_entry (o : FinalOutput) : JVal :=
  .obj [("role", .str "assistant"), ("content", .str o.explanation),
        ("tool_result", .str o.result), ("tool_name", .str o.tool_name)]

/-- The message handed to the orchestrator, line 288:
f"[USER_ID: \x7buser_id\x7d] \x7buser_message\x7d". -/
def enhanced_message (user_id user_message : String) : String :=
  "[USER_ID: " ++ user_id ++ "] " ++ user_message

/-- The prompt the handlers pass to Runner.run, lines 290-291: a copy
of the read history window with the enhanced user message appended. -/
def prompt_input (history : List JVal) (user_id user_message : String) : List JVal :=
  history ++ [roleContent "user" (enhanced_message user_id user_message)]

/-- The persistence decision after a completed run, lines 311-324: when
the run produced a final output whose explanation field is non-empty,
the history handed to save_history is the prior window plus the raw
user message (without the USER_ID prefix) and the assistant entry;
otherwise save_history is not called, modelled as none. -/
def persist_decision (history : List JVal) (user_message : String)
    (final_output : Option FinalOutput) : Option (List JVal) :=
  match final_output with
  | none => none
  | some o =>
    if o.explanation ≠ "" then
      some (history ++ [roleContent "user" user_message, assistant_entry o])
    else
      none

/-- The fixed refusal wording of lines 343 and 346. -/
def refusal_message : String :=
  "I am here to help you with Ansible AWX so right now I can\x27t help you with that."

/-- How a dispatched turn came back from the agent runner: either the
InputGuardrailTripwireTriggered exception escaped the runner before the
orchestrator produced anything, or the run completed with an optional
final output. -/
inductive RunOutcome where
  | tripwire
  | completed (fo : Option FinalOutput)

/-- The model_dump payload sent back on the final awx-chat frame for a
completed run, restricted to the projected fields. -/
def final_frame_content : Option FinalOutput → JVal
  | none => .null
  | some o =>
    .obj [("explanation", .str o.explanation), ("result", .str o.result),
          ("tool_name", .str o.tool_name)]

/-- Embedding of the outcome handling of handle_awx_chat: the pair of
the final frame sent to the client and the history handed to
save_history (none when no save happens).  The tripwire branch (lines
327-349) never consults any orchestrator output: it sends the fixed
refusal as the explanation and persists the raw user message plus a
two-field assistant refusal entry.  The completed branch (lines
311-326) sends the dumped final output and persists per
persist_decision. -/
def handle_awx_chat (history : List JVal) (user_message : String)
    (oc : RunOutcome) : JVal × Option (List JVal) :=
  match oc with
  | .tripwire =>
    (.obj [("request_type", .str "awx-chat"),
           ("content", .obj [("explanation", .str refusal_message)])],
     some (history ++ [roleContent "user" user_message,
                       roleContent "assistant" refusal_message]))
  | .completed fo =>
    (.obj [("request_type", .str "awx-chat"), ("content", final_frame_content fo)],
     persist_decision history user_message fo)

/-! Static agent wiring. -/

/-- The slice of the Agent constructor arguments the claims are about:
the agent name, the names of the agents in its handoffs list, and the
names of the guardrails in its input_guardrails list. -/
structure AgentConfig where
  name : String
  handoff_names : List String
  input_guardrail_names : List String

/-- Embedding of the leader agent construction in src/main.py lines
83-91.  The line input_guardrails=[security_request_guardrail] is
commented out in the source (line 89), so the Agent constructor runs
with its default empty guardrail list. -/
def the_leader_agent : AgentConfig :=
  { name := "The leader",
    handoff_names := ["Chat Agent", "AWX Worker Agent", "GitHub Worker Agent"],
    input_guardrail_names := [] }

/-- Number of guardrail checks the agents runner executes before the
orchestrator reasons over a turn: one per attached input guardrail. -/
def guardrail_checks_before_run (a : AgentConfig) : Nat :=
  a.input_guardrail_names.length

/-- The tool names src/sub_agents/awx_worker.py imports from
agent_tools.awx_mcp (lines 8-13) and places in the tools list of
awx_worker_agent (lines 63-76). -/
def awx_worker_tool_names : List String :=
  ["document_search", "list_api_paths", "call_awx_api", "check_project_manual_path"]

/-- Every function name defined in src/agent_tools/awx_mcp.py (one entry
per def statement, deduplicated, in source order). -/
def awx_mcp_defined_names : List String :=
  ["make_request", "list_inventories", "get_inventory", "run_job", "job_status", "job_logs",
    "create_job_template", "list_inventory_sources", "get_inventory_source",
    "create_inventory_source", "update_inventory_source", "delete_inventory_source",
    "sync_inventory_source", "create_inventory", "delete_inventory", "list_job_templates",
    "get_job_template", "list_jobs", "list_recent_jobs", "list_organizations", "get_organization",
    "list_credentials", "get_credential", "list_api_versions", "list_top_level_resources",
    "get_oauth2_info", "list_applications", "create_application", "get_application",
    "update_application", "delete_application", "list_access_tokens", "create_access_token",
    "get_access_token", "update_access_token", "delete_access_token", "list_instances",
    "create_instance", "get_instance", "update_instance", "patch_instance",
    "get_instance_health_check", "initiate_instance_health_check", "get_instance_install_bundle",
    "list_instance_instance_groups", "add_instance_to_instance_group", "list_instance_jobs",
    "list_instance_peers", "delete_instance", "list_instance_groups", "create_instance_group",
    "get_instance_group", "update_instance_group", "patch_instance_group",
    "delete_instance_group", "list_enabled_sso_endpoints", "get_sitewide_config",
    "install_license", "delete_license", "attach_configuration", "manage_subscriptions",
    "get_mesh_visualizer", "ping_instance", "get_instance_group_instances",
    "add_instance_to_group", "get_instance_group_jobs", "list_settings",
    "list_settings_by_category", "get_setting", "update_setting", "get_dashboard",
    "get_dashboard_graphs", "get_jobs_graph", "get_inventory_graph", "get_projects_graph",
    "get_credential_types_graph", "create_organization", "update_organization",
    "patch_organization", "delete_organization", "list_users", "create_user", "get_user",
    "update_user", "delete_user", "list_projects", "create_project", "get_project",
    "update_project", "delete_project", "create_credential", "update_credential",
    "patch_credential", "delete_credential", "update_inventory", "patch_inventory",
    "update_job_template", "patch_job_template", "delete_job_template", "create_job", "get_job",
    "update_job", "delete_job", "list_workflow_job_templates", "create_workflow_job_template",
    "get_workflow_job_template", "update_workflow_job_template", "delete_workflow_job_template",
    "patch_setting", "list_workflow_jobs", "create_workflow_job", "get_workflow_job",
    "update_workflow_job", "patch_workflow_job", "delete_workflow_job",
    "list_workflow_job_template_nodes", "create_workflow_job_template_node",
    "get_workflow_job_template_node", "update_workflow_job_template_node",
    "patch_workflow_job_template_node", "delete_workflow_job_template_node",
    "list_workflow_job_nodes", "create_workflow_job_node", "get_workflow_job_node",
    "update_workflow_job_node", "patch_workflow_job_node", "delete_workflow_job_node",
    "list_hosts", "create_host", "get_host", "update_host", "patch_host", "delete_host",
    "list_groups", "create_group", "get_group", "update_group", "patch_group", "delete_group",
    "patch_inventory_source", "list_inventory_updates", "create_inventory_update",
    "get_inventory_update", "update_inventory_update", "patch_inventory_update",
    "delete_inventory_update", "list_ad_hoc_commands", "create_ad_hoc_command",
    "get_ad_hoc_command", "update_ad_hoc_command", "patch_ad_hoc_command",
    "delete_ad_hoc_command", "list_system_job_templates", "create_system_job_template",
    "get_system_job_template", "update_system_job_template", "patch_system_job_template",
    "delete_system_job_template", "list_system_jobs", "get_system_job", "delete_system_job",
    "list_schedules", "create_schedule", "get_schedule", "update_schedule", "patch_schedule",
    "delete_schedule", "get_schedule_jobs", "get_schedule_next_run", "list_roles", "get_role",
    "list_role_children", "list_role_parents", "list_role_teams", "list_role_users",
    "list_notification_templates", "create_notification_template", "get_notification_template",
    "update_notification_template", "delete_notification_template", "test_notification_template",
    "list_notifications", "get_notification", "list_labels", "create_label", "get_label",
    "delete_label", "list_unified_job_templates", "get_unified_job_template",
    "delete_unified_job_template", "list_unified_jobs", "get_unified_job", "delete_unified_job",
    "get_unified_job_stdout", "list_unified_job_events", "list_unified_job_notifications",
    "list_unified_job_labels", "list_unified_job_activity_stream", "relaunch_unified_job",
    "list_workflow_approval_templates", "create_workflow_approval_template",
    "get_workflow_approval_template", "update_workflow_approval_template",
    "partial_update_workflow_approval_template", "delete_workflow_approval_template",
    "list_workflow_approvals", "get_workflow_approval", "approve_workflow_approval",
    "deny_workflow_approval", "list_workflow_job_node_always_nodes",
    "list_workflow_job_node_failure_nodes", "list_workflow_job_node_success_nodes",
    "list_workflow_job_node_credentials", "relaunch_workflow_job_node",
    "list_workflow_job_template_node_always_nodes",
    "list_workflow_job_template_node_failure_nodes",
    "list_workflow_job_template_node_success_nodes",
    "list_workflow_job_template_node_credentials", "partial_update_workflow_job_template",
    "list_workflow_job_template_activity_stream", "copy_workflow_job_template",
    "list_workflow_job_template_credentials", "launch_workflow_job_template",
    "list_workflow_job_template_labels", "list_workflow_job_template_notification_templates",
    "list_workflow_job_template_notification_templates_approvals",
    "list_workflow_job_template_notification_templates_error",
    "list_workflow_job_template_notification_templates_started",
    "list_workflow_job_template_notification_templates_success",
    "list_workflow_job_template_object_roles", "list_workflow_job_template_schedules",
    "get_workflow_job_template_survey_spec", "create_workflow_job_template_survey_spec",
    "delete_workflow_job_template_survey_spec", "list_workflow_job_template_workflow_jobs",
    "list_workflow_job_template_workflow_nodes", "cancel_workflow_job", "relaunch_workflow_job",
    "list_workflow_job_activity_stream", "list_workflow_job_labels",
    "list_workflow_job_notification_templates", "list_workflow_job_workflow_nodes"]

/-! Helper lemmas. -/

/-- Reduction of a bind on a successful Except value. -/
theorem except_bind_ok (a : α) (f : α → Except ε β) : (Except.ok a >>= f) = f a := rfl

/-- On a well-formed item the projection loop cannot raise and yields
the role-and-content projection. -/
theorem projectItem_wellFormed (item : JVal) (h : wellFormedTurn item = true) :
    projectItem item = .ok (projRC item) := by
  cases item with
  | obj fields =>
    simp only [wellFormedTurn, hasKey, Bool.and_eq_true, Option.isSome_iff_exists] at h
    obtain ⟨⟨r, hr⟩, ⟨c, hc⟩⟩ := h
    simp [projectItem, pyIndex, hr, hc, projRC, except_bind_ok]
  | null => simp [wellFormedTurn] at h
  | bool b => simp [wellFormedTurn] at h
  | num n => simp [wellFormedTurn] at h
  | str s => simp [wellFormedTurn] at h
  | arr items => simp [wellFormedTurn] at h

/-- On a list of well-formed items the projection loop succeeds and
maps the projection over the list in order. -/
theorem projectAll_wellFormed (items : List JVal)
    (h : ∀ v ∈ items, wellFormedTurn v = true) :
    projectAll items = .ok (items.map projRC) := by
  induction items with
  | nil => rfl
  | cons item rest ih =>
    have h1 : wellFormedTurn item = true := h item (List.mem_cons_self item rest)
    have h2 : ∀ v ∈ rest, wellFormedTurn v = true := fun v hv => h v (List.mem_cons_of_mem item hv)
    simp [projectAll, projectItem_wellFormed item h1, ih h2, except_bind_ok]

/-- A single-attempt write against a reachable, parseable store commits
the full new history. -/
theorem save_history_commit (nh : List JVal) (store : Fetch) (h : writeOk store = true) :
    save_history [] nh store = .stored (.arr nh) := by
  cases store <;> simp_all [save_history, save_history_impl, writeOk]

/-- Attempts performed by save_history: one more than the number of
leading conflicts in the schedule. -/
theorem save_attempts_eq (conflicts : List Bool) (nh : List JVal) (store : Fetch)
    (h : writeOk store = true) :
    (save_history_impl conflicts nh store).2 = (conflicts.takeWhile (fun b => b)).length + 1 := by
  induction conflicts with
  | nil => cases store <;> simp_all [save_history_impl, writeOk]
  | cons c rest ih =>
    cases store <;> cases c <;> simp_all [save_history_impl, writeOk, List.takeWhile]

/-! Claim theorems. -/

/-- C3 counterexample: a schedule with two consecutive watch conflicts
makes save_history retry the write twice, so the automatic retry is not
bounded by one. -/
theorem c3_counterexample :
    save_retries [true, true] [] .missing = 2
    ∧ ¬ (save_retries [true, true] [] .missing ≤ 1) :=
  ⟨rfl, by decide⟩

/-- C3 (amended): on every detected watch conflict save_history
immediately retries the entire write by calling itself again, so the
number of automatic retries equals the number of consecutive conflicts
encountered: exactly one for a single conflict, but unbounded in
general rather than capped at one. -/
theorem c3_retry_per_conflict (conflicts : List Bool) (nh : List JVal) (store : Fetch)
    (h : writeOk store = true) :
    save_retries conflicts nh store = (conflicts.takeWhile (fun b => b)).length := by
  simp [save_retries, save_attempts_eq conflicts nh store h]

/-- C3 witness: a single conflict against an empty store yields exactly
one automatic retry. -/
theorem c3_retry_per_conflict_witness :
    writeOk Fetch.missing = true ∧ save_retries [true] [] .missing = 1 :=
  ⟨rfl, by simpa using c3_retry_per_conflict [true] [] .missing rfl⟩

/-- C9: the final stored value does not depend on the watch-conflict
schedule: replaying the same write after any number of simulated
conflicts leaves the store exactly as a single successful write does. -/
theorem c9_write_idempotent_under_retry (conflicts : List Bool) (nh : List JVal) (store : Fetch) :
    save_history conflicts nh store = save_history [] nh store := by
  induction conflicts with
  | nil => rfl
  | cons c rest ih =>
    cases store <;> cases c <;> simp_all [save_history, save_history_impl]

/-- C5 counterexample: a stored JSON list whose item is an object
without a role key is not a well-formed turn list, yet get_history
raises (an uncaught KeyError) instead of returning the empty list. -/
theorem c5_counterexample :
    get_history (.stored (.arr [.obj []])) false = .error "KeyError: role" := rfl

/-- C5 (amended): get_history returns the empty list and does not raise
when no record exists, when the backing store is unreachable, when the
stored bytes are not valid JSON, and when the parsed value is not a
JSON list; however a parsed list holding an item without role and
content keys makes it raise (see the counterexample). -/
theorem c5_fail_open_cases (b : Bool) :
    get_history .unreachable b = .ok []
    ∧ get_history .missing b = .ok []
    ∧ get_history .malformed b = .ok []
    ∧ get_history (.stored .null) b = .ok []
    ∧ (∀ x : Bool, get_history (.stored (.bool x)) b = .ok [])
    ∧ (∀ n : Int, get_history (.stored (.num n)) b = .ok [])
    ∧ (∀ s : String, get_history (.stored (.str s)) b = .ok [])
    ∧ (∀ fields, get_history (.stored (.obj fields)) b = .ok []) :=
  ⟨rfl, rfl, rfl, rfl, fun _ => rfl, fun _ => rfl, fun _ => rfl, fun _ => rfl⟩

/-- C6 counterexample: write one assistant turn carrying tool_result
and tool_name fields, then read it back: the default read does not
return the written item (the tool fields are stripped), so read after
write is not exactly the last 20 written items. -/
theorem c6_counterexample :
    get_history (save_history [] [assistant_entry ⟨"a", "r", "t"⟩] .missing) false
      ≠ .ok (lastN 20 [assistant_entry ⟨"a", "r", "t"⟩]) := by
  intro h
  have h2 : (Except.ok [JVal.obj [("role", .str "assistant"), ("content", .str "a")]]
      : Except String (List JVal)) = .ok (lastN 20 [assistant_entry ⟨"a", "r", "t"⟩]) := h
  simp [assistant_entry, lastN] at h2

/-- C6 (amended): reading immediately after a successful write of a
history of well-formed turns returns the last 20 written items
projected to their role and content fields, oldest first; the
all_fields read returns exactly the last 20 written items. -/
theorem c6_read_after_write (hist : List JVal) (store : Fetch)
    (hs : writeOk store = true) (hw : ∀ v ∈ hist, wellFormedTurn v = true) :
    get_history (save_history [] hist store) false = .ok (lastN 20 (hist.map projRC))
    ∧ get_history (save_history [] hist store) true = .ok (lastN 20 hist) := by
  rw [save_history_commit hist store hs]
  exact ⟨by simp [get_history, projectAll_wellFormed hist hw, except_bind_ok], rfl⟩

/-- C6 witness: a two-turn history written to an empty store reads back
as its role-and-content projection. -/
theorem c6_read_after_write_witness :
    writeOk Fetch.missing = true
    ∧ get_history (save_history [] [roleContent "user" "hi", assistant_entry ⟨"ok", "r", "t"⟩] .missing) false
        = .ok (lastN 20 ([roleContent "user" "hi", assistant_entry ⟨"ok", "r", "t"⟩].map projRC)) :=
  ⟨rfl, (c6_read_after_write [roleContent "user" "hi", assistant_entry ⟨"ok", "r", "t"⟩]
          .missing rfl (by decide)).1⟩

/-- C4 counterexample: a 200 response declaring a JSON content type but
carrying an unparseable body makes make_request raise the JSON decode
exception, and a network error raises as well; neither failure is
turned into a textual result. -/
theorem c4_counterexample :
    make_request (.response ⟨200, "not json", "application/json", .error "JSONDecodeError: Expecting value"⟩)
      = .error "JSONDecodeError: Expecting value"
    ∧ make_request (.netError "ConnectError: connection refused")
      = .error "ConnectError: connection refused" :=
  ⟨rfl, rfl⟩

/-- C4 (amended): a status code outside 200 and 201 yields a textual
error description as the result, but a malformed JSON body on a
successful JSON response is returned as the raised decode exception and
a network error propagates as an exception, instead of being returned
as text. -/
theorem c4_error_text_only_for_bad_status :
    (∀ r : HttpResponse, r.status_code ∉ statusOkList →
       make_request (.response r) = .ok (.str ("Error " ++ toString r.status_code ++ ": " ++ r.text)))
    ∧ (∀ e : String, make_request (.netError e) = .error e)
    ∧ (∀ r : HttpResponse, r.status_code ∈ statusOkList → containsAppJson r.content_type = true →
       make_request (.response r) = r.json_outcome) := by
  refine ⟨fun r h => ?_, fun e => rfl, fun r h1 h2 => ?_⟩
  · simp [make_request, h]
  · simp [make_request, h1, h2]

/-- C4 witness: a 404 response is turned into a textual error result. -/
theorem c4_error_text_only_for_bad_status_witness :
    (404 ∉ statusOkList)
    ∧ make_request (.response ⟨404, "Not Found", "text/html", .error "boom"⟩)
        = .ok (.str ("Error " ++ toString 404 ++ ": " ++ "Not Found")) :=
  ⟨by decide, c4_error_text_only_for_bad_status.1 ⟨404, "Not Found", "text/html", .error "boom"⟩ (by decide)⟩

/-- C7: after a completed orchestrator run the history is handed to
save_history exactly when the final output exists and carries a
non-empty explanation, and the saved value is the prior window with
precisely the raw user turn and the assistant turn appended; with a
missing output or an empty explanation nothing is saved. -/
theorem c7_persist_iff_nonempty_explanation (history : List JVal) (msg : String)
    (fo : Option FinalOutput) :
    ((persist_decision history msg fo).isSome ↔ ∃ o, fo = some o ∧ o.explanation ≠ "")
    ∧ (∀ o, fo = some o → o.explanation ≠ "" →
        persist_decision history msg fo
          = some (history ++ [roleContent "user" msg, assistant_entry o]))
    ∧ (∀ o, fo = some o → o.explanation = "" → persist_decision history msg fo = none)
    ∧ (∀ saved, persist_decision history msg fo = some saved →
        saved.length = history.length + 2 ∧ saved.take history.length = history) := by
  cases fo with
  | none => simp [persist_decision]
  | some o =>
    by_cases he : o.explanation = ""
    · simp [persist_decision, he]
    · refine ⟨by simp [persist_decision, he], fun o2 ho2 _ => ?_, fun o2 ho2 h2 => ?_,
              fun saved hs => ?_⟩
      · cases ho2
        simp [persist_decision, he]
      · cases ho2
        exact absurd h2 he
      · have h2 : saved = history ++ [roleContent "user" msg, assistant_entry o] := by
          simp [persist_decision, he] at hs
          exact hs.symm
        subst h2
        constructor
        · simp
        · simp [List.take_left]

/-- C7 witness: a run whose final output has explanation "done"
persists the user and assistant turns onto the empty prior window. -/
theorem c7_persist_iff_nonempty_explanation_witness :
    persist_decision [] "hi" (some ⟨"done", "r", "t"⟩)
      = some ([] ++ [roleContent "user" "hi", assistant_entry ⟨"done", "r", "t"⟩]) :=
  (c7_persist_iff_nonempty_explanation [] "hi" (some ⟨"done", "r", "t"⟩)).2.1
    ⟨"done", "r", "t"⟩ rfl (by decide)

/-- C8: when the guardrail tripwire exception reaches the handler, the
reply sent to the client is the fixed refusal frame (independent of the
history and of the message, and built without any orchestrator output),
and the history handed to save_history is the prior window plus the raw
user turn and the assistant refusal turn, exactly two new entries. -/
theorem c8_tripwire_fixed_refusal (history : List JVal) (msg : String) :
    handle_awx_chat history msg .tripwire =
      (.obj [("request_type", .str "awx-chat"),
             ("content", .obj [("explanation", .str refusal_message)])],
       some (history ++ [roleContent "user" msg, roleContent "assistant" refusal_message]))
    ∧ (handle_awx_chat history msg .tripwire).1 = (handle_awx_chat [] "" .tripwire).1
    ∧ (∀ saved, (handle_awx_chat history msg .tripwire).2 = some saved →
        saved.length = history.length + 2) := by
  refine ⟨rfl, rfl, fun saved hs => ?_⟩
  have h2 : saved = history ++ [roleContent "user" msg, roleContent "assistant" refusal_message] :=
    (Option.some.inj hs).symm
  subst h2
  simp

/-- C8 witness: the tripwire branch at a concrete history and message. -/
theorem c8_tripwire_fixed_refusal_witness :
    handle_awx_chat [] "tell me a joke" .tripwire =
      (.obj [("request_type", .str "awx-chat"),
             ("content", .obj [("explanation", .str refusal_message)])],
       some ([] ++ [roleContent "user" "tell me a joke",
                    roleContent "assistant" refusal_message])) :=
  (c8_tripwire_fixed_refusal [] "tell me a joke").1

/-- C10: the last prompt entry handed to the orchestrator is the user
message with the literal USER_ID prefix, the rest of the prompt is the
unmodified history window, and the user entry handed to save_history
carries the raw message with no prefix. -/
theorem c10_prompt_prefixed_persisted_raw (history : List JVal) (uid msg : String)
    (o : FinalOutput) :
    (prompt_input history uid msg).getLast?
      = some (roleContent "user" ("[USER_ID: " ++ uid ++ "] " ++ msg))
    ∧ (prompt_input history uid msg).dropLast = history
    ∧ (o.explanation ≠ "" → persist_decision history msg (some o)
        = some (history ++ [roleContent "user" msg, assistant_entry o])) := by
  refine ⟨?_, ?_, fun he => ?_⟩
  · simp [prompt_input, enhanced_message]
  · simp [prompt_input]
  · simp [persist_decision, he]

/-- C10 witness: at user u1 and message "list inventories" the prompt
ends with the prefixed message while the persisted user entry is raw. -/
theorem c10_prompt_prefixed_persisted_raw_witness :
    (prompt_input [] "u1" "list inventories").getLast?
      = some (roleContent "user" ("[USER_ID: " ++ "u1" ++ "] " ++ "list inventories"))
    ∧ persist_decision [] "list inventories" (some ⟨"done", "r", "t"⟩)
        = some ([] ++ [roleContent "user" "list inventories", assistant_entry ⟨"done", "r", "t"⟩]) :=
  ⟨(c10_prompt_prefixed_persisted_raw [] "u1" "list inventories" ⟨"done", "r", "t"⟩).1,
   (c10_prompt_prefixed_persisted_raw [] "u1" "list inventories" ⟨"done", "r", "t"⟩).2.2 (by decide)⟩

/-- C1: the leader agent of src/main.py is constructed with no input
guardrails (the attachment on line 89 is commented out), so zero
guardrail checks run before the orchestrator reasons over a turn: the
gate does not stand in front of the orchestrator at all. -/
theorem c1_no_guardrail_before_orchestrator :
    the_leader_agent.input_guardrail_names = []
    ∧ guardrail_checks_before_run the_leader_agent = 0 :=
  ⟨rfl, rfl⟩

/-- C2: none of the four tool names the AWX worker imports from
agent_tools.awx_mcp (document_search, list_api_paths, call_awx_api,
check_project_manual_path) is defined in src/agent_tools/awx_mcp.py,
so the import that builds the worker tool bundle cannot resolve. -/
theorem c2_worker_tools_not_defined_in_awx_mcp :
    awx_worker_tool_names.all (fun t => ! awx_mcp_defined_names.contains t) = true := by
  decide

end AwxAssistant
